import Mathlib

/-!
Verification of the expression-graph core of a typed IR for analytical
queries (the façade in `ibis/expr/types/generic.py` and the map operation
catalog in `ibis/expr/operations/maps.py`), as a shallow embedding.

The type lattice (`dt` module), rule engine and the operation base classes
are not part of the analysed sources; those parts are modelled from the
specification and each such definition carries a doc comment starting with
`Modelled from the spec:`.  Nullability is omitted from `DataType`
following the spec's §9 recommendation that it be excluded from the
equality used for precedence and casting.
-/

deriving instance DecidableEq for Except

namespace IbisCore

/-- Modelled from the spec: the geometry/geography subtype tag
("geotype") carried by geospatial data types. -/
inductive GeoType where
  | geom
  | geog
deriving DecidableEq, Repr

/-- Modelled from the spec: the data-type lattice (`ibis.expr.datatypes`,
not in the analysed sources).  A kind tag with kind parameters; container
kinds carry element types recursively.  `geometry` and `geography` are the
two concrete geospatial subclasses (fixed geotype), `geospatial` the
generic geospatial type whose geotype may be absent. -/
inductive DataType where
  | int8
  | int16
  | int32
  | int64
  | float32
  | float64
  | decimal (precision scale : Nat)
  | boolean
  | string
  | binary
  | date
  | time
  | timestamp
  | null
  | array (elem : DataType)
  | map (key value : DataType)
  | geometry
  | geography
  | geospatial (gt : Option GeoType)
deriving DecidableEq, Repr

/-- The two-valued shape tag of a value: a single scalar or a columnar
sequence. -/
inductive Shape where
  | scalar
  | column
deriving DecidableEq, Repr

/-- Modelled from the spec: native Python scalar values fed to the
literal entry point.  `pyobj` stands for an arbitrary object with no
inferable type. -/
inductive Value where
  | pynone
  | pybool (b : Bool)
  | pyint (n : Int)
  | pystr (s : String)
  | pyobj (oid : Nat)
deriving DecidableEq, Repr

/-- The operation-node catalog needed by the analysed façade methods
(`ibis.expr.operations`).  Each constructor is one node kind; fields are
child nodes or configuration values, so nodes form a DAG by
construction. -/
inductive Node where
  | literal (value : Value) (dtype : DataType)
  | unboundTable (tid : Nat)
  | tableColumn (table : Node) (colname : String) (dtype : DataType)
  | cast (arg : Node) (target : DataType)
  | distinctColumn (arg : Node)
  | count (arg : Node)
  | countFiltered (arg wfilter : Node)
  | countDistinct (arg : Node)
  | countDistinctFiltered (arg wfilter : Node)
  | equalsOp (left right : Node)
deriving DecidableEq, Repr

/-- Embeds `ops.Count(arg, where)`: the optional `where` filter is encoded by the
two constructors `count` (filter absent) and `countFiltered`. -/
def Node.mkCount (arg : Node) (wfilter : Option Node) : Node :=
  match wfilter with
  | Option.none => .count arg
  | some w => .countFiltered arg w

/-- Embeds `ops.CountDistinct(arg, where)`: the optional `where` filter is
encoded by the two constructors `countDistinct` and
`countDistinctFiltered`. -/
def Node.mkCountDistinct (arg : Node) (wfilter : Option Node) : Node :=
  match wfilter with
  | Option.none => .countDistinct arg
  | some w => .countDistinctFiltered arg w

/-- The typed, immutable expression view over a node
(`ValueExpr.__init__`): the bound node (`_arg`), the computed DataType
(`_dtype`), the concrete view class collapsed to its Shape, and the
optional explicit name override (`_name`). -/
structure View where
  vnode : Node
  vdtype : DataType
  vshape : Shape
  vname : Option String
deriving DecidableEq, Repr

/-- A view tagged with an allocation identity: `vid` models Python object
identity, so two structurally equal views with different `vid`s are
distinct objects.  Fresh constructions draw fresh identities. -/
structure IdView where
  view : View
  vid : Nat
deriving DecidableEq, Repr

/-- An argument passed to the literal entry point: either a native value
or an already-wrapped expression object. -/
inductive PyVal where
  | val (v : Value)
  | expr (e : IdView)
deriving DecidableEq, Repr

/-- Modelled from the spec: the kind families used by `same_kind` and
`highest_precedence` — the numeric widening ladder is one family; the
temporal types are one family; other kinds are their own families. -/
inductive Family where
  | numeric
  | booleanF
  | stringF
  | binaryF
  | temporal
  | nullF
  | arrayF
  | mapF
  | geoF
deriving DecidableEq, Repr

/-- Modelled from the spec: the family of a data type (`dt.same_kind`'s
grouping).  The numeric ladder int8<int16<int32<int64<float32<float64<
decimal is one family, date/time/timestamp form the temporal family. -/
def family : DataType → Family
  | .int8 | .int16 | .int32 | .int64 => .numeric
  | .float32 | .float64 | .decimal _ _ => .numeric
  | .boolean => .booleanF
  | .string => .stringF
  | .binary => .binaryF
  | .date | .time | .timestamp => .temporal
  | .null => .nullF
  | .array _ => .arrayF
  | .map _ _ => .mapF
  | .geometry | .geography | .geospatial _ => .geoF

/-- Modelled from the spec: `dt.same_kind(a, b)` is true iff `a` and `b`
belong to the same kind family. -/
def same_kind (a b : DataType) : Bool :=
  family a = family b

/-- Modelled from the spec: the precedence rank of a type inside its
family (total order over each compatible family). -/
def rank : DataType → Nat
  | .int8 => 0
  | .int16 => 1
  | .int32 => 2
  | .int64 => 3
  | .float32 => 4
  | .float64 => 5
  | .decimal _ _ => 6
  | .time => 1
  | .timestamp => 2
  | _ => 0

/-- The typed errors raised by the analysed code, carrying the context
the corresponding exception message formats. -/
inductive Err where
  | mapDefaultTypeError (defaultExpr : View) (defaultType valueType : DataType)
  | incompatibleTypes (ts : List DataType)
  | coerceError (value : PyVal) (requested : DataType)
  | inferError (value : PyVal)
  | normalizeError (dtype : DataType)
  | attributeError
  | relationError
  | indexError
deriving DecidableEq, Repr

/-- Modelled from the spec: `dt.highest_precedence(types)` returns the
type of maximal rank when all input types belong to one compatible
family, and raises a typed error naming the offending types otherwise. -/
def highest_precedence (ts : List DataType) : Except Err DataType :=
  match ts with
  | [] => .error (.incompatibleTypes [])
  | t :: rest =>
      if rest.all (fun u => same_kind t u) then
        .ok (rest.foldl (fun acc u => if rank acc < rank u then u else acc) t)
      else
        .error (.incompatibleTypes ts)

/-- Modelled from the spec: the inclusive integer range of a fixed-width
signed integer type, used for the value-aware castability check. -/
def intRange : DataType → Option (Int × Int)
  | .int8 => some (-128, 127)
  | .int16 => some (-32768, 32767)
  | .int32 => some (-2147483648, 2147483647)
  | .int64 => some (-9223372036854775808, 9223372036854775807)
  | _ => Option.none

/-- Modelled from the spec: the value-aware range check used by
`castable` — an integer literal fits a narrower integer type iff it lies
in that type's range. -/
def valueFits (t : DataType) (v : Option PyVal) : Bool :=
  match v with
  | some (.val (.pyint n)) =>
      match intRange t with
      | some (lo, hi) => lo ≤ n && n ≤ hi
      | Option.none => false
  | _ => false

/-- Modelled from the spec: `dt.castable(from, to, value)` — reflexive;
the untyped null type casts to anything; container kinds cast iff their
parameters cast pairwise; within one family, widening (non-decreasing
rank) always casts and narrowing casts only when the supplied literal
value fits the target's range. -/
def castable (f t : DataType) (v : Option PyVal) : Bool :=
  if f = t then true
  else
    match f, t with
    | .null, _ => true
    | .array a, .array b => castable a b Option.none
    | .map k1 v1, .map k2 v2 =>
        castable k1 k2 Option.none && castable v1 v2 Option.none
    | f, t => same_kind f t && (rank f ≤ rank t || valueFits t v)

/-- Modelled from the spec: `dt.infer(value)` — structural inference over
native values; an integer resolves to the narrowest signed integer type
holding it; arbitrary objects have no inferable type. -/
def infer : Value → Option DataType
  | .pynone => some .null
  | .pybool _ => some .boolean
  | .pyint n =>
      if -128 ≤ n ∧ n ≤ 127 then some .int8
      else if -32768 ≤ n ∧ n ≤ 32767 then some .int16
      else if -2147483648 ≤ n ∧ n ≤ 2147483647 then some .int32
      else if -9223372036854775808 ≤ n ∧ n ≤ 9223372036854775807 then
        some .int64
      else Option.none
  | .pystr _ => some .string
  | .pyobj _ => Option.none

/-- Modelled from the spec: a rendering of a data type, standing in for
the repr that the analysed code interpolates into names and messages. -/
def dtypeName : DataType → String
  | .int8 => "int8"
  | .int16 => "int16"
  | .int32 => "int32"
  | .int64 => "int64"
  | .float32 => "float32"
  | .float64 => "float64"
  | .decimal _ _ => "decimal"
  | .boolean => "boolean"
  | .string => "string"
  | .binary => "binary"
  | .date => "date"
  | .time => "time"
  | .timestamp => "timestamp"
  | .null => "null"
  | .array e => "array<" ++ dtypeName e ++ ">"
  | .map k v => "map<" ++ dtypeName k ++ ", " ++ dtypeName v ++ ">"
  | .geometry => "geometry"
  | .geography => "geography"
  | .geospatial _ => "geospatial"

/-- Modelled from the spec: the `geotype` attribute read by the cast
short-circuit.  Only the geospatial kinds carry the attribute; reading it
on any other kind is an attribute error, rendered here as `Option.none`
on the outer level.  The concrete subclasses have a fixed geotype, the
generic geospatial kind may carry none. -/
def geotypeAttr : DataType → Option (Option GeoType)
  | .geometry => some (some .geom)
  | .geography => some (some .geog)
  | .geospatial gt => some gt
  | _ => Option.none

/-- Embeds `isinstance(op.to, (dt.Geography, dt.Geometry))`: the target of the
geospatial cast short-circuit must be one of the two concrete geospatial
subclasses. -/
def isGeoTarget : DataType → Bool
  | .geometry | .geography => true
  | _ => false

/-- The geotype of a concrete geospatial target type. -/
def targetGeotype : DataType → GeoType
  | .geography => .geog
  | _ => .geom

/-- Embeds `self.type().geotype or 'geometry'`: a falsy (absent) geotype
defaults to geometry. -/
def geoDefault (g : Option GeoType) : GeoType :=
  g.getD .geom

/-- Modelled from the spec: `op.has_resolved_name`/`op.resolve_name` —
a table column resolves to its column name; the other modelled node
kinds have no resolvable naming convention. -/
def Node.resolveName : Node → Option String
  | .tableColumn _ colname _ => some colname
  | _ => Option.none

/-- Embeds `ValueExpr.get_name` (merged with `has_name`): the explicit name
override when set, otherwise the name the bound node resolves to. -/
def View.get_name (v : View) : Option String :=
  match v.vname with
  | some n => some n
  | Option.none => v.vnode.resolveName

/-- Embeds `ValueExpr.name`: a new view over the same node (`_arg`) built by
`_factory` — same view class hence same shape, dtype taken from the
receiver, and the name override set to the given name.  The receiver is a
pure value and is not modified. -/
def View.name (v : View) (n : String) : View :=
  { vnode := v.vnode, vdtype := v.vdtype, vshape := v.vshape,
    vname := some n }

/-- Embeds `rlz.shape_like(args, _)`: Column if any referenced argument is
column-shaped, else Scalar. -/
def shape_like (vs : List View) : Shape :=
  if vs.any (fun v => decide (v.vshape = Shape.column)) then .column
  else .scalar

/-- Embeds `MapValueOrDefaultForKey.output_type` (ibis/expr/operations/maps.py):
reads the map's value type, requires the default's kind family to match
it (typed error carrying the default expression, its type and the map's
value type otherwise), and returns `highest_precedence((default_type,
value_type))` with the shape of the arguments. -/
def MapValueOrDefaultForKey.output_type (arg key default : View) :
    Except Err (DataType × Shape) :=
  match arg.vdtype with
  | .map _ value_type =>
      let default_type := default.vdtype
      if ¬ same_kind default_type value_type then
        .error (.mapDefaultTypeError default default_type value_type)
      else
        match highest_precedence [default_type, value_type] with
        | .error e => .error e
        | .ok result_type =>
            .ok (result_type, shape_like [arg, key, default])
  | _ => .error .attributeError

/-- The three ways `AnyValue.cast` can go: return `self` unchanged
(no-op), fail reading the source type's geotype attribute, or build a
fresh cast expression. -/
inductive CastOutcome where
  | noop
  | attrErr
  | build
deriving DecidableEq, Repr

/-- The branch structure of `AnyValue.cast`: a no-op when the resolved
target equals the source type; for a concrete geospatial target, read the
source's geotype (defaulting a falsy geotype to geometry) and no-op when
it matches the target's; otherwise build a fresh cast node. -/
def castCase (v : View) (t : DataType) : CastOutcome :=
  if t = v.vdtype then .noop
  else if isGeoTarget t then
    match geotypeAttr v.vdtype with
    | Option.none => .attrErr
    | some g => if geoDefault g = targetGeotype t then .noop else .build
  else .build

/-- The fresh expression `AnyValue.cast` builds in its non-short-circuit
branch: a view over a `Cast` node with the requested target type and the
argument's shape, renamed after the source when the source has a name. -/
def castResult (v : View) (t : DataType) : View :=
  let result : View :=
    { vnode := .cast v.vnode t, vdtype := t, vshape := v.vshape,
      vname := Option.none }
  match v.get_name with
  | some n => result.name ("cast(" ++ n ++ ", " ++ dtypeName t ++ ")")
  | Option.none => result

/-- Embeds `AnyValue.cast` assembled from its branch structure. -/
def View.cast (v : View) (t : DataType) : Except Err View :=
  match castCase v t with
  | .noop => .ok v
  | .attrErr => .error .attributeError
  | .build => .ok (castResult v t)

/-- Embeds `AnyColumn.count`: when the receiver's node is a `DistinctColumn`,
build `CountDistinct` over the distinct node's underlying column,
otherwise build `Count` over the receiver; wrap as an integer scalar and
rename the result "count". -/
def View.count (c : View) (wfilter : Option View) : View :=
  let w := wfilter.map View.vnode
  let result : View :=
    match c.vnode with
    | .distinctColumn inner =>
        { vnode := Node.mkCountDistinct inner w, vdtype := .int64,
          vshape := .scalar, vname := Option.none }
    | _ =>
        { vnode := Node.mkCount c.vnode w, vdtype := .int64,
          vshape := .scalar, vname := Option.none }
  result.name "count"

/-- Transitive base-relation references of a node, in first-visit order
and with duplicates kept. -/
def Node.rootsRaw : Node → List Node
  | .unboundTable tid => [.unboundTable tid]
  | .tableColumn table _ _ => table.rootsRaw
  | .literal _ _ => []
  | .cast arg _ => arg.rootsRaw
  | .distinctColumn arg => arg.rootsRaw
  | .count arg => arg.rootsRaw
  | .countFiltered arg wfilter => arg.rootsRaw ++ wfilter.rootsRaw
  | .countDistinct arg => arg.rootsRaw
  | .countDistinctFiltered arg wfilter => arg.rootsRaw ++ wfilter.rootsRaw
  | .equalsOp left right => left.rootsRaw ++ right.rootsRaw

/-- First-occurrence deduplication of a list. -/
def dedup {α : Type} [DecidableEq α] (xs : List α) : List α :=
  xs.foldl (fun acc x => if x ∈ acc then acc else acc ++ [x]) []

/-- Modelled from the spec: `op.root_tables()` — the set of distinct
base-relation nodes a node transitively depends on. -/
def Node.root_tables (n : Node) : List Node :=
  dedup n.rootsRaw

/-- Modelled from the spec: the single-table projection built by
`TableExpr(roots[0]).projection([self])` — the base relation together
with the projected expressions. -/
structure Projection where
  base : Node
  exprs : List View
deriving DecidableEq, Repr

/-- Embeds `ScalarExpr.to_projection` and `ColumnExpr.to_projection`: a relation
error when the node references more than one distinct base table,
otherwise a projection of the view over the single root (indexing the
empty root list is an index error). -/
def View.to_projection (v : View) : Except Err Projection :=
  let roots := v.vnode.root_tables
  if roots.length > 1 then .error .relationError
  else
    match roots with
    | [] => .error .indexError
    | r :: _ => .ok { base := r, exprs := [v] }

/-- The process-wide mutable state the literal entry point touches: the
allocation counter for fresh object identities and the lazily created
`_NULL` singleton. -/
structure LitState where
  nextId : Nat
  nullSing : Option IdView
deriving DecidableEq, Repr

/-- Modelled from the spec: `ops.NullLiteral().to_expr()` — the untyped
null literal view: a literal node carrying the null value at the null
type, wrapped as an unnamed null scalar. -/
def nullView : View :=
  { vnode := .literal .pynone .null, vdtype := .null, vshape := .scalar,
    vname := Option.none }

/-- The free function `null()`: return the process-wide `_NULL`
singleton, creating (and storing) it on first use. -/
def null (s : LitState) : IdView × LitState :=
  match s.nullSing with
  | some v => (v, s)
  | Option.none =>
      let v : IdView := { view := nullView, vid := s.nextId }
      (v, { nextId := s.nextId + 1, nullSing := some v })

/-- Embeds `AnyValue.cast` acting on identity-tagged views: the no-op branches
return the receiver itself (same identity), the build branch allocates a
fresh object. -/
def castId (e : IdView) (t : DataType) (s : LitState) :
    Except Err IdView × LitState :=
  match castCase e.view t with
  | .noop => (.ok e, s)
  | .attrErr => (.error .attributeError, s)
  | .build =>
      (.ok { view := castResult e.view t, vid := s.nextId },
       { nextId := s.nextId + 1, nullSing := s.nullSing })

/-- Embeds `hasattr(value, 'op') and isinstance(value.op(), ops.Literal)`: the
argument is an expression bound to a literal node (the null literal is a
literal node). -/
def isLiteralExpr : PyVal → Bool
  | .expr e =>
      match e.view.vnode with
      | .literal _ _ => true
      | _ => false
  | .val _ => false

/-- Embeds `dt.infer` applied to a literal argument; inferring the type of an
expression object fails like that of any other arbitrary object. -/
def inferArg : PyVal → Option DataType
  | .val v => infer v
  | .expr _ => Option.none

/-- Lines 993-1023 of `literal`: attempt inference, resolve the explicit
type, and combine them — with both available the inferred type must be
castable to the explicit one for this exact value (typed error naming the
value and the requested type otherwise); with only one available use it;
with neither, a typed error that the value's type cannot be inferred. -/
def resolveDtype (value : PyVal) (t : Option DataType) :
    Except Err DataType :=
  match inferArg value, t with
  | some inferred, some explicit =>
      if castable inferred explicit (some value) then .ok explicit
      else .error (.coerceError value explicit)
  | Option.none, some explicit => .ok explicit
  | some inferred, Option.none => .ok inferred
  | Option.none, Option.none => .error (.inferError value)

/-- Modelled from the spec: `dt._normalize(dtype, value)` — canonicalize
a native value into the in-memory representation implied by the type; for
the scalar natives modelled here the representation is the value itself,
and a non-native (expression) argument cannot be canonicalized. -/
def dtNormalize (dtype : DataType) (value : PyVal) : Except Err Value :=
  match value with
  | .val v => .ok v
  | .expr _ => .error (.normalizeError dtype)

/-- Lines 993-1029 of `literal`, after the already-a-literal-view
short-circuit: resolve the DataType, then either return the null
singleton cast to the null type, or normalize the value and build a fresh
literal node wrapped as an unnamed scalar view. -/
def literalCont (value : PyVal) (t : Option DataType) (s : LitState) :
    Except Err IdView × LitState :=
  match resolveDtype value t with
  | .error e => (.error e, s)
  | .ok dtype =>
      if dtype = DataType.null then
        let p := null s
        castId p.1 dtype p.2
      else
        match dtNormalize dtype value with
        | .error e => (.error e, s)
        | .ok v' =>
            (.ok { view := { vnode := .literal v' dtype, vdtype := dtype,
                             vshape := .scalar, vname := Option.none },
                   vid := s.nextId },
             { nextId := s.nextId + 1, nullSing := s.nullSing })

/-- The free function `literal(value, type=None)`: return an argument
that is already a view over a literal node unchanged, otherwise resolve
the type and construct the literal. -/
def literal (value : PyVal) (t : Option DataType) (s : LitState) :
    Except Err IdView × LitState :=
  if isLiteralExpr value then
    match value with
    | .expr e => (.ok e, s)
    | .val _ => literalCont value t s
  else
    literalCont value t s

/-- Claim C8: `.name(s)` returns a view over the same underlying node
with the name override set to `s`, preserving the receiver's DataType and
Shape; the receiver, an immutable value, is left unmodified. -/
theorem name_preserves_node_dtype_shape (v : View) (n : String) :
    (v.name n).vnode = v.vnode ∧ (v.name n).vdtype = v.vdtype ∧
      (v.name n).vshape = v.vshape ∧ (v.name n).vname = some n :=
  ⟨rfl, rfl, rfl, rfl⟩

/-- Claim C10: `.count(where)` on a column whose node is a
`DistinctColumn` builds a `CountDistinct` node over the distinct node's
underlying column; on any other column it builds a `Count` node over the
receiver; in both cases the result is an integer scalar named "count". -/
theorem count_on_distinct_builds_count_distinct (c : View)
    (w : Option View) :
    (c.count w).vname = some "count" ∧ (c.count w).vdtype = .int64 ∧
      (c.count w).vshape = .scalar ∧
      (∀ inner, c.vnode = .distinctColumn inner →
        (c.count w).vnode = Node.mkCountDistinct inner (w.map View.vnode)) ∧
      ((∀ inner, c.vnode ≠ .distinctColumn inner) →
        (c.count w).vnode = Node.mkCount c.vnode (w.map View.vnode)) := by
  refine ⟨?_, ?_, ?_, ?_, ?_⟩
  · cases h : c.vnode <;> simp [View.count, View.name, h]
  · cases h : c.vnode <;> simp [View.count, View.name, h]
  · cases h : c.vnode <;> simp [View.count, View.name, h]
  · intro inner h
    simp [View.count, View.name, h]
  · intro h
    cases hc : c.vnode <;> simp [View.count, View.name, hc]
    exact absurd hc (h _)

/-- Column `a` of an unbound base table, used as a concrete fixture. -/
def colA : View :=
  ⟨.tableColumn (.unboundTable 0) "a" .int64, .int64, .column, Option.none⟩

/-- The distinct column over `colA`, used as a concrete fixture. -/
def distinctColA : View :=
  ⟨.distinctColumn colA.vnode, .int64, .column, Option.none⟩

/-- Witness for C10: on the distinct column over table column `a` the
count is a `CountDistinct` over `a` itself, and on the plain column it is
a `Count`; the result is named "count". -/
theorem count_on_distinct_builds_count_distinct_witness :
    (distinctColA.count Option.none).vnode = .countDistinct colA.vnode ∧
      (colA.count Option.none).vnode = .count colA.vnode ∧
      (distinctColA.count Option.none).vname = some "count" := by
  refine ⟨?_, ?_, ?_⟩
  · exact (count_on_distinct_builds_count_distinct distinctColA
      Option.none).2.2.2.1 _ rfl
  · exact (count_on_distinct_builds_count_distinct colA
      Option.none).2.2.2.2 (by intro inner h; cases h)
  · exact (count_on_distinct_builds_count_distinct distinctColA
      Option.none).1

/-- Claim C9: `to_projection` on a view whose node transitively references
more than one distinct base relation raises a relation error instead of
picking one; with exactly one root it returns the projection of the view
over that single table. -/
theorem to_projection_ambiguous_roots (v : View) :
    (v.vnode.root_tables.length > 1 →
        v.to_projection = .error .relationError) ∧
      (∀ r, v.vnode.root_tables = [r] →
        v.to_projection = .ok { base := r, exprs := [v] }) := by
  constructor
  · intro h
    simp only [View.to_projection]
    rw [if_pos h]
  · intro r hr
    simp only [View.to_projection, hr]
    rw [if_neg (by simp)]

/-- A boolean comparison spanning two distinct base tables, used as a
concrete fixture. -/
def crossTableEq : View :=
  ⟨.equalsOp colA.vnode (.tableColumn (.unboundTable 1) "b" .int64),
    .boolean, .column, Option.none⟩

/-- Witness for C9: the two-table comparison has two roots and fails with
a relation error; the single-table column projects onto its table. -/
theorem to_projection_ambiguous_roots_witness :
    crossTableEq.to_projection = .error .relationError ∧
      colA.to_projection =
        .ok { base := .unboundTable 0, exprs := [colA] } := by
  constructor
  · exact (to_projection_ambiguous_roots crossTableEq).1 (by decide)
  · exact (to_projection_ambiguous_roots colA).2 _ (by decide)

/-- Claim C3: `literal` on a value whose type cannot be inferred, called
with no explicit type, raises a typed error carrying the value, and
leaves the state untouched (no node is constructed). -/
theorem literal_uninferable_without_type (v : Value) (s : LitState)
    (h : infer v = Option.none) :
    literal (.val v) Option.none s = (.error (.inferError (.val v)), s) := by
  simp [literal, isLiteralExpr, literalCont, resolveDtype, inferArg, h]

/-- Witness for C3: an arbitrary object has no inferable type and
`literal` rejects it, leaving the initial state unchanged. -/
theorem literal_uninferable_without_type_witness :
    infer (.pyobj 0) = Option.none ∧
      literal (.val (.pyobj 0)) Option.none ⟨0, Option.none⟩ =
        (.error (.inferError (.val (.pyobj 0))), ⟨0, Option.none⟩) :=
  ⟨rfl, literal_uninferable_without_type (.pyobj 0) ⟨0, Option.none⟩ rfl⟩

/-- Claim C4: `literal` is idempotent on literal views — an argument that
is already a view bound to a literal node is returned itself (same object
identity, same state: nothing is allocated), whatever explicit type is
passed. -/
theorem literal_idempotent_on_literal_views (e : IdView)
    (t : Option DataType) (s : LitState)
    (h : isLiteralExpr (.expr e) = true) :
    literal (.expr e) t s = (.ok e, s) := by
  simp [literal, h]

/-- Witness for C4: a literal view is returned identically (same `vid`)
with the state untouched, even with an explicit type supplied. -/
theorem literal_idempotent_on_literal_views_witness :
    literal (.expr ⟨⟨.literal (.pyint 1) .int8, .int8, .scalar,
          Option.none⟩, 7⟩) (some .int64) ⟨9, Option.none⟩ =
      (.ok ⟨⟨.literal (.pyint 1) .int8, .int8, .scalar, Option.none⟩, 7⟩,
        ⟨9, Option.none⟩) :=
  literal_idempotent_on_literal_views _ _ _ rfl

/-- Claim C5: `null()` returns the process-wide singleton — when absent
it is created and stored exactly once (one allocation), when present the
stored instance itself is returned with the state untouched; hence a
second call always returns an instance identical (same `vid`) to the
first. -/
theorem null_singleton_created_once (s : LitState) :
    (null ((null s).2)).1 = (null s).1 ∧
      (null ((null s).2)).2 = (null s).2 ∧
      (s.nullSing = Option.none →
        (null s).1 = ⟨nullView, s.nextId⟩ ∧
          (null s).2 = ⟨s.nextId + 1, some ⟨nullView, s.nextId⟩⟩) ∧
      (∀ w, s.nullSing = some w → null s = (w, s)) := by
  obtain ⟨nid, nsing⟩ := s
  cases nsing <;> simp [null]

/-- Witness for C5: from the fresh initial state the singleton is
allocated with identity 0, and the second call returns that identical
instance without touching the state. -/
theorem null_singleton_created_once_witness :
    (null ((null ⟨0, Option.none⟩).2)).1 = (null ⟨0, Option.none⟩).1 ∧
      (null ⟨0, Option.none⟩).1 = ⟨nullView, 0⟩ ∧
      (null ⟨0, Option.none⟩).2 = ⟨1, some ⟨nullView, 0⟩⟩ :=
  ⟨(null_singleton_created_once ⟨0, Option.none⟩).1,
    ((null_singleton_created_once ⟨0, Option.none⟩).2.2.1 rfl).1,
    ((null_singleton_created_once ⟨0, Option.none⟩).2.2.1 rfl).2⟩

/-- Claim C1: building a map value-for-key-with-default node raises a
typed error carrying the default expression, its type and the map's value
type whenever the default's kind family differs from the value type's;
with matching families the node's output DataType is
`highest_precedence((default_type, value_type))` with the arguments'
shape. -/
theorem map_value_or_default_output (arg key default : View)
    (kt vt : DataType) (h : arg.vdtype = .map kt vt) :
    (same_kind default.vdtype vt = false →
        MapValueOrDefaultForKey.output_type arg key default
          = .error (.mapDefaultTypeError default default.vdtype vt)) ∧
      (same_kind default.vdtype vt = true →
        ∃ r, highest_precedence [default.vdtype, vt] = .ok r ∧
          MapValueOrDefaultForKey.output_type arg key default
            = .ok (r, shape_like [arg, key, default])) := by
  constructor
  · intro hsk
    simp [MapValueOrDefaultForKey.output_type, h, hsk]
  · intro hsk
    refine ⟨if rank default.vdtype < rank vt then vt else default.vdtype,
      ?_, ?_⟩
    · simp [highest_precedence, hsk]
    · simp [MapValueOrDefaultForKey.output_type, h, hsk,
        highest_precedence]

/-- A string-typed scalar literal view, used as a concrete fixture. -/
def strLit : View :=
  ⟨.literal (.pystr "d") .string, .string, .scalar, Option.none⟩

/-- A column of type map<string, int32> over a base table, used as a
concrete fixture. -/
def mapCol : View :=
  ⟨.tableColumn (.unboundTable 0) "m" (.map .string .int32),
    .map .string .int32, .column, Option.none⟩

/-- An int8-typed scalar literal view, used as a concrete fixture. -/
def litFive : View :=
  ⟨.literal (.pyint 5) .int8, .int8, .scalar, Option.none⟩

/-- Witness for C1: a string default against an int32 map value type is
rejected with the error carrying that default, its type and the value
type; an int8 default is accepted and the output type is int32 (the
higher precedence of the two), column-shaped like the map argument. -/
theorem map_value_or_default_output_witness :
    MapValueOrDefaultForKey.output_type mapCol strLit strLit
        = .error (.mapDefaultTypeError strLit .string .int32) ∧
      (∃ r, highest_precedence [DataType.int8, DataType.int32] = .ok r ∧
        MapValueOrDefaultForKey.output_type mapCol strLit litFive
          = .ok (r, shape_like [mapCol, strLit, litFive])) :=
  ⟨(map_value_or_default_output mapCol strLit strLit .string .int32
      rfl).1 rfl,
    (map_value_or_default_output mapCol strLit litFive .string .int32
      rfl).2 rfl⟩

/-- Claim C2: with both an inferred and an explicit type, `literal`
checks value-aware castability of the inferred type to the explicit one;
on failure it raises a typed error carrying the value and the requested
type without constructing anything (state unchanged), and when the check
passes no such coercion error is ever produced. -/
theorem literal_rejects_uncastable_explicit (v : Value) (t it : DataType)
    (s : LitState) (hinf : infer v = some it) :
    (castable it t (some (.val v)) = false →
        literal (.val v) (some t) s
          = (.error (.coerceError (.val v) t), s)) ∧
      (castable it t (some (.val v)) = true →
        ∀ (p : PyVal) (t' : DataType),
          (literal (.val v) (some t) s).1 ≠ .error (.coerceError p t')) := by
  constructor
  · intro hc
    simp [literal, isLiteralExpr, literalCont, resolveDtype, inferArg,
      hinf, hc]
  · intro hc p t'
    simp only [literal, isLiteralExpr, Bool.false_eq_true, if_false,
      literalCont, resolveDtype, inferArg, hinf, hc, if_true]
    by_cases ht : t = DataType.null
    · subst ht
      simp only [if_pos rfl]
      cases hcc : castCase (null s).1.view DataType.null <;>
        simp [castId, hcc]
    · simp [ht, dtNormalize]

/-- Witness for C2: the string "foobar" infers as string, which is not
castable to int64 even value-aware, so `literal` rejects it with an error
carrying the value and the requested type, leaving the state unchanged;
the int 5 infers as int8, castable to int64, and no coercion error
arises. -/
theorem literal_rejects_uncastable_explicit_witness :
    infer (.pystr "foobar") = some .string ∧
      castable .string .int64 (some (.val (.pystr "foobar"))) = false ∧
      literal (.val (.pystr "foobar")) (some .int64) ⟨0, Option.none⟩
        = (.error (.coerceError (.val (.pystr "foobar")) .int64),
            ⟨0, Option.none⟩) ∧
      (literal (.val (.pyint 5)) (some .int64) ⟨0, Option.none⟩).1
        ≠ .error (.coerceError (.val (.pyint 5)) .int64) :=
  ⟨rfl, rfl,
    (literal_rejects_uncastable_explicit (.pystr "foobar") .int64 .string
      ⟨0, Option.none⟩ rfl).1 rfl,
    (literal_rejects_uncastable_explicit (.pyint 5) .int64 .int8
      ⟨0, Option.none⟩ rfl).2 rfl _ _⟩

/-- Claim C6: past the already-a-literal-view short-circuit, and in a
state whose stored singleton (if any) is the null literal view as `null()`
maintains, `literal` with a resolved DataType equal to the null type
returns the null singleton cast to that type (a no-op cast, so the
singleton itself) instead of constructing a fresh literal node; with any
other resolved DataType it normalizes the value against the type and
builds a fresh literal node carrying the normalized value. -/
theorem literal_null_type_returns_singleton (value : PyVal)
    (t : Option DataType) (s : LitState) (d : DataType)
    (hlit : isLiteralExpr value = false)
    (hwf : ∀ w, s.nullSing = some w → w.view = nullView)
    (hres : resolveDtype value t = .ok d) :
    (d = .null → literal value t s = (.ok (null s).1, (null s).2)) ∧
      (d ≠ .null → ∀ v', dtNormalize d value = .ok v' →
        literal value t s =
          (.ok ⟨⟨.literal v' d, d, .scalar, Option.none⟩, s.nextId⟩,
            ⟨s.nextId + 1, s.nullSing⟩)) := by
  have hl : literal value t s = literalCont value t s := by
    cases value with
    | val v => simp [literal, hlit]
    | expr e => simp [literal, hlit]
  rw [hl]
  constructor
  · intro hd
    subst hd
    have hview : (null s).1.view = nullView := by
      obtain ⟨nid, nsing⟩ := s
      cases hns : nsing with
      | none => simp [null]
      | some w =>
          simp [null]
          exact hwf w (by simp [hns])
  
    simp only [literalCont, hres, if_pos rfl]
    simp [castId, castCase, hview, nullView]
  · intro hd v' hn
    simp [literalCont, hres, hd, hn]

/-- Witness for C6: `literal(None)` from the fresh state returns exactly
what `null()` yields on that state (the singleton, here freshly created
with identity 0), while `literal(5)` builds a fresh int8 literal node
carrying 5. -/
theorem literal_null_type_returns_singleton_witness :
    literal (.val .pynone) Option.none ⟨0, Option.none⟩
        = (.ok (null ⟨0, Option.none⟩).1, (null ⟨0, Option.none⟩).2) ∧
      literal (.val (.pyint 5)) Option.none ⟨0, Option.none⟩
        = (.ok ⟨⟨.literal (.pyint 5) .int8, .int8, .scalar, Option.none⟩,
              0⟩,
            ⟨1, Option.none⟩) :=
  ⟨(literal_null_type_returns_singleton (.val .pynone) Option.none
      ⟨0, Option.none⟩ .null rfl (by intro w h; cases h) rfl).1 rfl,
    (literal_null_type_returns_singleton (.val (.pyint 5)) Option.none
      ⟨0, Option.none⟩ .int8 rfl (by intro w h; cases h) rfl).2
      (by decide) (.pyint 5) rfl⟩

/-- The fresh cast expression always carries the requested target type,
whether or not it gets renamed after a named source. -/
theorem castResult_vdtype (v : View) (t : DataType) :
    (castResult v t).vdtype = t := by
  unfold castResult
  cases v.get_name <;> simp [View.name]

/-- Counterexample for C7 as stated: casting an int8 literal view to the
geometry type is neither of the claim's two no-op cases (the target
differs from the source type and the source type has no geotype), yet the
call does not produce a result of the requested type — it fails reading
the source's geotype attribute. -/
theorem cast_target_type_counterexample :
    DataType.geometry ≠ litFive.vdtype ∧
      geotypeAttr litFive.vdtype = Option.none ∧
      litFive.cast DataType.geometry = .error .attributeError := by
  refine ⟨by decide, rfl, rfl⟩

/-- Claim C7 (amended): `v.cast(t)` returns `v` itself when `t` equals
`v.type()`, and when `t` is a concrete geometry/geography type and the
source type's geotype — defaulting to geometry when absent — equals
`t`'s; when `t` is geometry/geography but the source type carries no
geotype attribute at all, the cast fails with an attribute error; in all
remaining cases the result's DataType is exactly the requested target
type `t`. -/
theorem cast_short_circuits_and_target_type (v : View) (t : DataType) :
    (t = v.vdtype → v.cast t = .ok v) ∧
      (∀ g, isGeoTarget t = true → geotypeAttr v.vdtype = some g →
        geoDefault g = targetGeotype t → v.cast t = .ok v) ∧
      (t ≠ v.vdtype → isGeoTarget t = true →
        geotypeAttr v.vdtype = Option.none →
        v.cast t = .error .attributeError) ∧
      (t ≠ v.vdtype →
        (isGeoTarget t = true →
          ∃ g, geotypeAttr v.vdtype = some g ∧
            geoDefault g ≠ targetGeotype t) →
        ∃ w, v.cast t = .ok w ∧ w.vdtype = t) := by
  refine ⟨?_, ?_, ?_, ?_⟩
  · intro h
    simp [View.cast, castCase, h]
  · intro g hgt hattr hmatch
    by_cases ht : t = v.vdtype
    · simp [View.cast, castCase, ht]
    · simp [View.cast, castCase, ht, hgt, hattr, hmatch]
  · intro ht hgt hattr
    simp [View.cast, castCase, ht, hgt, hattr]
  · intro ht hgeo
    refine ⟨castResult v t, ?_, castResult_vdtype v t⟩
    by_cases hgt : isGeoTarget t = true
    · obtain ⟨g, hg, hne⟩ := hgeo hgt
      simp [View.cast, castCase, ht, hgt, hg, hne]
    · simp only [Bool.not_eq_true] at hgt
      simp [View.cast, castCase, ht, hgt]

/-- A generic geospatial view whose geotype is geography, used as a
concrete fixture. -/
def geogView : View :=
  ⟨.literal (.pyobj 1) (.geospatial (some .geog)),
    .geospatial (some .geog), .scalar, Option.none⟩

/-- Witness for C7 (amended): a same-type cast and a geotype-matching
geospatial cast are no-ops, a geospatial target over a geotype-less
source fails with the attribute error, and an ordinary cast yields a
result of exactly the requested type. -/
theorem cast_short_circuits_and_target_type_witness :
    litFive.cast .int8 = .ok litFive ∧
      geogView.cast .geography = .ok geogView ∧
      litFive.cast .geometry = .error .attributeError ∧
      ∃ w, litFive.cast .int64 = .ok w ∧ w.vdtype = .int64 :=
  ⟨(cast_short_circuits_and_target_type litFive .int8).1 rfl,
    (cast_short_circuits_and_target_type geogView .geography).2.1
      (some .geog) rfl rfl rfl,
    (cast_short_circuits_and_target_type litFive .geometry).2.2.1
      (by decide) rfl rfl,
    (cast_short_circuits_and_target_type litFive .int64).2.2.2
      (by decide) (fun h => absurd h (by decide))⟩
